import Mathlib

/-!
Shallow embedding of the mission-assembly core of the BHP conveyor inspection
mission generator: field_utils/models.py, field_utils/task_factory.py,
field_utils/geometry.py, field_utils/environment_builder.py and
field_utils/mission_generator.py.

Python dicts with in-place mutation are modelled by explicit state passing
(functions return the updated value alongside their result); Python floats are
modelled by real numbers in the geometry and by rationals in task settings
(no claim below depends on floating-point rounding).  Fallible resolution
returns Option.
-/

namespace FieldUtils

/-- Transition (models.py lines 66-76): outcome-based flow control edge. -/
structure Transition where
  outcome : String
  transition : String
  transition_to_state : Bool
deriving DecidableEq, Repr, Inhabited

/-- The value stored in a task Setting (Python: Any; here the two kinds the
factory actually stores: strings and numbers). -/
inductive SettingValue where
  | str (s : String)
  | num (q : ℚ)
deriving DecidableEq, Repr

/-- Setting (models.py lines 79-89): task setting with name, type and value. -/
structure Setting where
  name : String
  type : String
  value : SettingValue
deriving DecidableEq, Repr

/-- MissionTask (models.py lines 304-321): common data of all task variants. -/
structure MissionTask where
  name : String
  type : String
  settings : List Setting
  transitions : List Transition
deriving DecidableEq, Repr, Inhabited

/-- UndockTask (models.py lines 349-360). -/
def UndockTask (name : String := "Undock") : MissionTask :=
  { name := name
    type := "system_behavior_plugins::Walk"
    settings := []
    transitions :=
      [⟨"failure", "failure", false⟩,
       ⟨"preemption", "preemption", false⟩,
       ⟨"success", "[next_task_name]", true⟩] }

/-- DockTask (models.py lines 363-375). -/
def DockTask (name : String := "Dock") (docking_station : String := "Suggested") :
    MissionTask :=
  { name := name
    type := "docking_behavior_plugins::Dock"
    settings := [⟨"docking_station", "DockingStation", .str docking_station⟩]
    transitions :=
      [⟨"failure", "failure", false⟩,
       ⟨"preemption", "preemption", false⟩,
       ⟨"success", "success", false⟩] }

/-- SleepTask (models.py lines 378-390). -/
def SleepTask (name : String) (duration : ℚ := 5) : MissionTask :=
  { name := name
    type := "basic_behavior_plugins::Sleep"
    settings := [⟨"duration", "double", .num duration⟩]
    transitions :=
      [⟨"failure", "failure", false⟩,
       ⟨"preemption", "preemption", false⟩,
       ⟨"success", "[next_task_name]", true⟩] }

/-- NavigationTask (models.py lines 393-408). -/
def NavigationTask (name : String) (navigation_goal : String)
    (route_option : String := "Along Waypoints") : MissionTask :=
  { name := name
    type := "navigation_behavior_plugins::ReactiveNavigation"
    settings :=
      [⟨"navigation_goal", "NavigationGoal", .str navigation_goal⟩,
       ⟨"route_option", "RouteOption", .str route_option⟩]
    transitions :=
      [⟨"failure", "[next_task_name]", true⟩,
       ⟨"preemption", "preemption", false⟩,
       ⟨"success", "[next_task_name]", true⟩] }

/-- InspectionTask (models.py lines 411-428): thermal / intelligent inspection. -/
def InspectionTask (name : String) (inspectable_item : String) (plugin : String)
    (action : String := "Inspect") : MissionTask :=
  { name := name
    type := plugin ++ "::" ++ action
    settings := [⟨"inspectable_item", "InspectableItem", .str inspectable_item⟩]
    transitions :=
      [⟨"anomaly", "[next_task_name]", true⟩,
       ⟨"failure", "[next_task_name]", true⟩,
       ⟨"normal", "[next_task_name]", true⟩,
       ⟨"preemption", "preemption", false⟩] }

/-- SimpleInspectionTask (models.py lines 431-447): visual / auditive inspection. -/
def SimpleInspectionTask (name : String) (inspectable_item : String) (plugin : String)
    (action : String := "Inspect") : MissionTask :=
  { name := name
    type := plugin ++ "::" ++ action
    settings := [⟨"inspectable_item", "InspectableItem", .str inspectable_item⟩]
    transitions :=
      [⟨"failure", "[next_task_name]", true⟩,
       ⟨"success", "[next_task_name]", true⟩,
       ⟨"preemption", "preemption", false⟩] }

/-- MissionTask.link_to (models.py lines 323-327): every transition still holding
the placeholder target is redirected to the next task's name. -/
def link_to (t next_task : MissionTask) : MissionTask :=
  { t with transitions := t.transitions.map fun tr =>
      if tr.transition = "[next_task_name]" then
        { tr with transition := next_task.name }
      else tr }

/-- MissionTask.set_as_final (models.py lines 329-337): every transition still
holding the placeholder gets transition_to_state false and target success or
failure depending on its outcome. -/
def set_as_final (t : MissionTask) : MissionTask :=
  { t with transitions := t.transitions.map fun tr =>
      if tr.transition = "[next_task_name]" then
        { tr with
          transition_to_state := false
          transition :=
            if tr.outcome = "success" ∨ tr.outcome = "normal" then "success"
            else "failure" }
      else tr }

/-- Position (models.py lines 23-29), used as the [x, y, z] float triples of the
geometry code.  Floats are modelled by real numbers. -/
structure Vec3 where
  x : ℝ
  y : ℝ
  z : ℝ

/-- Orientation (models.py lines 32-39): quaternion. -/
structure Quat where
  w : ℝ
  x : ℝ
  y : ℝ
  z : ℝ

/-- Tolerance (models.py lines 42-47). -/
structure Tolerance where
  translation : ℝ
  rotation : ℝ

/-- Size (models.py lines 50-55). -/
structure Size where
  width : ℝ
  height : ℝ

/-- TemperatureRange (models.py lines 58-63). -/
structure TemperatureRange where
  min : ℝ
  max : ℝ

/-- Pose (models.py lines 104-122). -/
structure Pose where
  position : Vec3
  orientation : Quat

/-- PoseStamped (models.py lines 125-162): pose plus optional tolerance. -/
structure PoseStamped where
  pose : Pose
  tolerance : Option Tolerance

/-- The default pose of a freshly constructed environment object:
position (0,0,0), identity orientation, no tolerance. -/
def defaultPose : PoseStamped :=
  { pose := { position := ⟨0, 0, 0⟩, orientation := ⟨1, 0, 0, 0⟩ }, tolerance := none }

/-- Environment object variants (models.py lines 169-297).  NavigationZone has
no pose; the thermal point carries its fixed detection parameters and the
visual point its size. -/
inductive EnvObject where
  | navigationGoal (name label : String) (pose : PoseStamped)
  | navigationZone (name label : String)
  | dockingStation (name label : String) (pose : PoseStamped)
  | thermalInspectionPoint (name label : String) (pose : PoseStamped)
      (min_certainty : ℝ) (temperature_type unit : String)
      (normal_operating_range : TemperatureRange)
  | visualInspectionPoint (name label : String) (pose : PoseStamped)
      (camera_type : String) (size : Size)

/-- The name attribute common to every environment object. -/
def EnvObject.name : EnvObject → String
  | .navigationGoal n _ _ => n
  | .navigationZone n _ => n
  | .dockingStation n _ _ => n
  | .thermalInspectionPoint n _ _ _ _ _ _ => n
  | .visualInspectionPoint n _ _ _ _ => n

/-- The type tag of each variant, exactly as fixed by the Python constructors. -/
def EnvObject.type : EnvObject → String
  | .navigationGoal _ _ _ => "navigation_goal"
  | .navigationZone _ _ => "navigation_zone"
  | .dockingStation _ _ _ => "docking_station"
  | .thermalInspectionPoint _ _ _ _ _ _ _ => "visual_inspection_thermal"
  | .visualInspectionPoint _ _ _ _ _ => "visual_inspection_simple"

/-- ObjectRelation (models.py lines 92-101): directed (child, parent) edge. -/
structure ObjectRelation where
  child : String
  parent : String

/-- Environment (models.py lines 454-485): ordered objects and relations. -/
structure Environment where
  objects : List EnvObject
  object_relations : List ObjectRelation

/-- Environment.add_object (models.py lines 461-463): append. -/
def Environment.add_object (env : Environment) (obj : EnvObject) : Environment :=
  { env with objects := env.objects ++ [obj] }

/-- Environment.add_relation (models.py lines 465-467): append. -/
def Environment.add_relation (env : Environment) (child parent : String) : Environment :=
  { env with object_relations := env.object_relations ++ [⟨child, parent⟩] }

/-- Environment.has_object (models.py lines 469-471). -/
def Environment.has_object (env : Environment) (name : String) : Bool :=
  env.objects.any fun obj => obj.name == name

/-- Environment.get_object (models.py lines 473-478): first match in insertion
order. -/
def Environment.get_object (env : Environment) (name : String) : Option EnvObject :=
  env.objects.find? fun obj => obj.name == name

/-- TaskDescriptor: the plain task-specification dict consumed by the factory
(task_factory.py line 77).  Absent dict keys are Option none. -/
structure TaskDescriptor where
  name : String
  type : Option String := none
  label : Option String := none
  action : Option String := none
  duration : Option ℚ := none
  docking_station : Option String := none
deriving DecidableEq, Repr, Inhabited

/-- The kinds of task class stored in the static table (task_factory.py
TaskConfig.task_class holds one of NavigationTask, InspectionTask,
SimpleInspectionTask). -/
inductive TaskClass where
  | navigation
  | inspection
  | simpleInspection
deriving DecidableEq, Repr

/-- TaskConfig (task_factory.py lines 21-28).  The field task_pfx is called
task_prefix in the source. -/
structure TaskConfig where
  task_pfx : String
  item_suffix : String
  plugin : String
  task_class : TaskClass
deriving DecidableEq, Repr

/-- TASK_CONFIGS (task_factory.py lines 31-74): static table of seven entries,
as a lookup function. -/
def TASK_CONFIGS : String → Option TaskConfig
  | "visual_inspection_thermal" =>
      some ⟨"Inspect", "VIT", "visual_inspection_thermal_behavior_plugins", .inspection⟩
  | "inspection_intelligence" =>
      some ⟨"Inspect", "II", "inspection_intelligence_behavior_plugins", .inspection⟩
  | "auditive_inspection_frequency" =>
      some ⟨"Inspect", "AudioFreq", "auditive_inspection_frequency_behavior_plugins", .inspection⟩
  | "visual_inspection_simple" =>
      some ⟨"Inspect", "VIS", "visual_inspection_simple_behavior_plugins", .simpleInspection⟩
  | "auditive_inspection_simple" =>
      some ⟨"Inspect", "AudioS", "auditive_inspection_simple_behavior_plugins", .simpleInspection⟩
  | "visual_inspection_video_recording" =>
      some ⟨"Record", "VSVR", "visual_inspection_video_recording_behavior_plugins", .simpleInspection⟩
  | "navigation_goal" =>
      some ⟨"Navigate to", "NavGoal", "navigation_behavior_plugins", .navigation⟩
  | _ => none

/-- create_task_entry lines 88-89: if "label" is absent it is written into the
caller's dict as the task's name.  This is the only mutation the factory
performs on a descriptor. -/
def setLabelDefault (task : TaskDescriptor) : TaskDescriptor :=
  if task.label = none then { task with label := some task.name } else task

/-- create_task_entry lines 91-159 (everything after the label-defaulting
mutation): resolve one descriptor against the environment, or None. -/
def resolveTaskEntry (task : TaskDescriptor) (env : Environment) : Option MissionTask :=
  let tt0 := task.type.getD ""
  let task_type? : Option String :=
    if tt0 = "" then
      match env.get_object task.name with
      | none => none
      | some obj => some obj.type
    else some tt0
  match task_type? with
  | none => none
  | some task_type =>
    if task_type = "undock" then
      some (UndockTask (task.label.getD "Undock"))
    else if task_type = "dock" then
      some (DockTask (task.label.getD "Dock") (task.docking_station.getD "Suggested"))
    else if task_type = "sleep" then
      some (SleepTask (task.label.getD ("Sleep " ++ task.name)) (task.duration.getD 5))
    else
      match TASK_CONFIGS task_type with
      | none => none
      | some config =>
        let object_name? : Option String :=
          if env.has_object task.name then some task.name
          else
            let object_name_with_suffix := task.name ++ "-" ++ config.item_suffix
            if env.has_object object_name_with_suffix then some object_name_with_suffix
            else none
        match object_name? with
        | none => none
        | some object_name =>
          let task_name :=
            if config.task_pfx ≠ "" then config.task_pfx ++ " " ++ task.label.getD ""
            else task.label.getD ""
          let action := task.action.getD "Inspect"
          match config.task_class with
          | .navigation => some (NavigationTask task_name object_name "Along Waypoints")
          | .inspection => some (InspectionTask task_name object_name config.plugin action)
          | .simpleInspection =>
              some (SimpleInspectionTask task_name object_name config.plugin action)

/-- create_task_entry (task_factory.py lines 77-159).  The second component is
the descriptor after the in-place label mutation of lines 88-89. -/
def create_task_entry (task : TaskDescriptor) (env : Environment) :
    Option MissionTask × TaskDescriptor :=
  let task := setLabelDefault task
  (resolveTaskEntry task env, task)

/-- The sequential linking loop of process_mission_generation (task_factory.py
lines 186-192): tasks 0 .. n-2 are link_to'd to their successor, the last task
is set_as_final.  link_to only reads the successor's name, which linking never
changes, so the in-place loop is equivalent to this pure recursion. -/
def linkTasks : List MissionTask → List MissionTask
  | [] => []
  | [t] => [set_as_final t]
  | t :: u :: rest => link_to t u :: linkTasks (u :: rest)

/-- Mission (models.py lines 501-512): name, initial state and ordered task
list.  The remaining Mission settings (type tag, outcomes, restart flag) are
constants of the constructor and carry no claim-relevant data. -/
structure Mission where
  name : String
  initial_state : String
  states : List MissionTask
deriving DecidableEq, Repr

/-- Mission construction from the resolved task list (task_factory.py lines
186-196): link sequentially, mark the final task, initial state is the first
task's name or the empty string. -/
def missionFromTasks (mission_name : String) (mission_tasks : List MissionTask) : Mission :=
  let linked := linkTasks mission_tasks
  { name := mission_name
    initial_state := match linked with | [] => "" | t :: _ => t.name
    states := linked }

/-- process_mission_generation (task_factory.py lines 162-196).  The second
component returns the descriptor list after the in-place label mutations
performed by create_task_entry on the caller's dicts. -/
def process_mission_generation (task_list_data : List TaskDescriptor)
    (env : Environment) (mission_name : String) : Mission × List TaskDescriptor :=
  let results := task_list_data.map fun task_spec => create_task_entry task_spec env
  let mission_tasks := results.filterMap Prod.fst
  (missionFromTasks mission_name mission_tasks, results.map Prod.snd)

/-! ### Basic factory lemmas -/

theorem setLabelDefault_name (d : TaskDescriptor) : (setLabelDefault d).name = d.name := by
  unfold setLabelDefault; split <;> rfl

theorem setLabelDefault_type (d : TaskDescriptor) : (setLabelDefault d).type = d.type := by
  unfold setLabelDefault; split <;> rfl

theorem create_task_entry_fst (d : TaskDescriptor) (env : Environment) :
    (create_task_entry d env).1 = resolveTaskEntry (setLabelDefault d) env := rfl

/-- Claim C3 counterexample: the transition (failure, placeholder, continue)
belongs to the default transitions of SimpleInspectionTask but not to those of
SleepTask or UndockTask, so Sleep and Undock are not created with the same
3-outcome default transition set as SimpleInspection (their failure outcome is
terminal, targeting the reserved failure exit with continuation false). -/
theorem sleep_undock_not_simple_inspection_transitions :
    (⟨"failure", "[next_task_name]", true⟩ : Transition) ∈
      (SimpleInspectionTask "Inspect X" "X" "plug" "Inspect").transitions ∧
    (⟨"failure", "[next_task_name]", true⟩ : Transition) ∉
      (SleepTask "Sleep S1" 5).transitions ∧
    (⟨"failure", "[next_task_name]", true⟩ : Transition) ∉
      (UndockTask "Undock").transitions ∧
    (SleepTask "Sleep S1" 5).transitions ≠
      (SimpleInspectionTask "Inspect X" "X" "plug" "Inspect").transitions := by
  refine ⟨?_, ?_, ?_, ?_⟩ <;> decide

/-- Claim C3 amended: Sleep and Undock tasks share one 3-outcome default
transition set — failure targets the reserved failure exit terminally
(continuation false), preemption targets the preemption exit terminally, and
only the success outcome continues through the placeholder target with
continuation true.  This differs from SimpleInspection, whose failure outcome
also continues through the placeholder. -/
theorem sleep_undock_default_transitions (n m : String) (d : ℚ) :
    (SleepTask n d).transitions =
      [⟨"failure", "failure", false⟩,
       ⟨"preemption", "preemption", false⟩,
       ⟨"success", "[next_task_name]", true⟩] ∧
    (UndockTask m).transitions = (SleepTask n d).transitions := ⟨rfl, rfl⟩

/-- Claim C7: a descriptor whose type (explicit, or inferred from the
referenced environment object when the type key is absent or empty) is neither
a system type nor a key of the static table resolves to none; a descriptor
whose referenced object is absent — at type inference, or at object resolution
even after the suffix fallback — resolves to none; and a descriptor resolving
to none contributes no state to the Mission produced by
process_mission_generation (the resolver is a total function, so no unhandled
error can be raised in the model). -/
theorem unknown_or_missing_descriptor_dropped :
    (∀ (d : TaskDescriptor) (env : Environment) (tt : String),
        d.type = some tt → tt ≠ "" →
        tt ≠ "undock" → tt ≠ "dock" → tt ≠ "sleep" →
        TASK_CONFIGS tt = none →
        (create_task_entry d env).1 = none) ∧
    (∀ (d : TaskDescriptor) (env : Environment) (obj : EnvObject),
        d.type.getD "" = "" →
        env.get_object d.name = some obj →
        obj.type ≠ "undock" → obj.type ≠ "dock" → obj.type ≠ "sleep" →
        TASK_CONFIGS obj.type = none →
        (create_task_entry d env).1 = none) ∧
    (∀ (d : TaskDescriptor) (env : Environment),
        d.type.getD "" = "" →
        env.get_object d.name = none →
        (create_task_entry d env).1 = none) ∧
    (∀ (d : TaskDescriptor) (env : Environment) (tt : String) (config : TaskConfig),
        d.type = some tt →
        TASK_CONFIGS tt = some config →
        env.has_object d.name = false →
        env.has_object (d.name ++ "-" ++ config.item_suffix) = false →
        (create_task_entry d env).1 = none) ∧
    (∀ (pre post : List TaskDescriptor) (d : TaskDescriptor) (env : Environment)
        (nm : String),
        (create_task_entry d env).1 = none →
        (process_mission_generation (pre ++ d :: post) env nm).1 =
          (process_mission_generation (pre ++ post) env nm).1) := by
  refine ⟨?_, ?_, ?_, ?_, ?_⟩
  · intro d env tt hd hne hu hk hs hcfg
    rw [create_task_entry_fst]
    have h1 : (setLabelDefault d).type = some tt := by rw [setLabelDefault_type, hd]
    simp only [resolveTaskEntry, h1, Option.getD_some, if_neg hne, if_neg hu,
      if_neg hk, if_neg hs, hcfg]
  · intro d env obj hd hobj hu hk hs hcfg
    rw [create_task_entry_fst]
    have h1 : (setLabelDefault d).type.getD "" = "" := by rw [setLabelDefault_type, hd]
    have h2 : env.get_object (setLabelDefault d).name = some obj := by
      rw [setLabelDefault_name, hobj]
    simp only [resolveTaskEntry, h1, if_pos rfl, h2, if_true, if_neg hu, if_neg hk,
      if_neg hs, hcfg]
  · intro d env hd hobj
    rw [create_task_entry_fst]
    have h1 : (setLabelDefault d).type.getD "" = "" := by rw [setLabelDefault_type, hd]
    have h2 : env.get_object (setLabelDefault d).name = none := by
      rw [setLabelDefault_name, hobj]
    simp only [resolveTaskEntry, h1, if_pos rfl, h2, if_true]
  · intro d env tt config hd hcfg hno hns
    have hne : tt ≠ "" := by intro h; subst h; simp [TASK_CONFIGS] at hcfg
    have hu : tt ≠ "undock" := by intro h; subst h; simp [TASK_CONFIGS] at hcfg
    have hk : tt ≠ "dock" := by intro h; subst h; simp [TASK_CONFIGS] at hcfg
    have hs : tt ≠ "sleep" := by intro h; subst h; simp [TASK_CONFIGS] at hcfg
    rw [create_task_entry_fst]
    have h1 : (setLabelDefault d).type = some tt := by rw [setLabelDefault_type, hd]
    simp only [resolveTaskEntry, h1, Option.getD_some, if_neg hne, if_neg hu,
      if_neg hk, if_neg hs, hcfg, setLabelDefault_name]
    rw [if_neg (by simp [hno]), if_neg (by simp [hns])]
  · intro pre post d env nm h
    have h' : (Prod.fst ∘ fun task_spec => create_task_entry task_spec env) d = none := h
    simp [process_mission_generation, List.filterMap_map, List.filterMap_append,
      List.filterMap_cons, h']
    rw [h]

/-- Claim C7 witness: a concrete unknown-type descriptor and a concrete
missing-object descriptor both resolve to none against the empty environment,
and the unknown-type descriptor contributes no state to the generated
Mission. -/
theorem unknown_or_missing_descriptor_dropped_witness :
    (create_task_entry ⟨"X", some "mystery_type", none, none, none, none⟩ ⟨[], []⟩).1 =
      none ∧
    (create_task_entry ⟨"P9", some "visual_inspection_simple", none, none, none, none⟩
        ⟨[], []⟩).1 = none ∧
    (process_mission_generation
        [⟨"X", some "mystery_type", none, none, none, none⟩] ⟨[], []⟩ "M").1 =
      (process_mission_generation [] ⟨[], []⟩ "M").1 := by
  have h1 := unknown_or_missing_descriptor_dropped.1
    ⟨"X", some "mystery_type", none, none, none, none⟩ ⟨[], []⟩ "mystery_type"
    rfl (by decide) (by decide) (by decide) (by decide) (by decide)
  have h2 := unknown_or_missing_descriptor_dropped.2.2.2.1
    ⟨"P9", some "visual_inspection_simple", none, none, none, none⟩ ⟨[], []⟩
    "visual_inspection_simple"
    ⟨"Inspect", "VIS", "visual_inspection_simple_behavior_plugins", .simpleInspection⟩
    rfl rfl rfl rfl
  exact ⟨h1, h2, unknown_or_missing_descriptor_dropped.2.2.2.2 [] []
    ⟨"X", some "mystery_type", none, none, none, none⟩ ⟨[], []⟩ "M" h1⟩

/-- Claim C8: for a descriptor whose type is a key of the static table, whose
name is not an object of the graph, but where name-"-"-suffix is, resolution
succeeds and the produced task carries a setting referencing the suffixed
object name. -/
theorem suffix_fallback_resolution (d : TaskDescriptor) (env : Environment)
    (tt : String) (config : TaskConfig)
    (h1 : d.type = some tt) (h2 : TASK_CONFIGS tt = some config)
    (h3 : env.has_object d.name = false)
    (h4 : env.has_object (d.name ++ "-" ++ config.item_suffix) = true) :
    ∃ mt, (create_task_entry d env).1 = some mt ∧
      ∃ s ∈ mt.settings,
        s.value = SettingValue.str (d.name ++ "-" ++ config.item_suffix) := by
  have hne : tt ≠ "" := by intro h; subst h; simp [TASK_CONFIGS] at h2
  have hu : tt ≠ "undock" := by intro h; subst h; simp [TASK_CONFIGS] at h2
  have hk : tt ≠ "dock" := by intro h; subst h; simp [TASK_CONFIGS] at h2
  have hs : tt ≠ "sleep" := by intro h; subst h; simp [TASK_CONFIGS] at h2
  rw [create_task_entry_fst]
  have ht : (setLabelDefault d).type = some tt := by rw [setLabelDefault_type, h1]
  simp only [resolveTaskEntry, ht, Option.getD_some, if_neg hne, if_neg hu,
    if_neg hk, if_neg hs, h2, setLabelDefault_name]
  rw [if_neg (by simp [h3]), if_pos h4]
  obtain ⟨p, suf, plug, cls⟩ := config
  cases cls with
  | navigation =>
      exact ⟨_, rfl, ⟨"navigation_goal", "NavigationGoal",
        .str (d.name ++ "-" ++ suf)⟩, by simp [NavigationTask], rfl⟩
  | inspection =>
      exact ⟨_, rfl, ⟨"inspectable_item", "InspectableItem",
        .str (d.name ++ "-" ++ suf)⟩, by simp [InspectionTask], rfl⟩
  | simpleInspection =>
      exact ⟨_, rfl, ⟨"inspectable_item", "InspectableItem",
        .str (d.name ++ "-" ++ suf)⟩, by simp [SimpleInspectionTask], rfl⟩

/-- Claim C8 witness: the descriptor (name P1, type visual_inspection_simple)
resolves against a graph holding only the object P1-VIS to a task whose
inspectable_item setting references P1-VIS. -/
theorem suffix_fallback_resolution_witness :
    ∃ mt, (create_task_entry ⟨"P1", some "visual_inspection_simple", none, none, none, none⟩
        ⟨[.visualInspectionPoint "P1-VIS" "P1-VIS" defaultPose "normal" ⟨1/10, 8/10⟩],
         []⟩).1 = some mt ∧
      ∃ s ∈ mt.settings, s.value = SettingValue.str ("P1" ++ "-" ++ "VIS") :=
  suffix_fallback_resolution
    ⟨"P1", some "visual_inspection_simple", none, none, none, none⟩
    ⟨[.visualInspectionPoint "P1-VIS" "P1-VIS" defaultPose "normal" ⟨1/10, 8/10⟩], []⟩
    "visual_inspection_simple"
    ⟨"Inspect", "VIS", "visual_inspection_simple_behavior_plugins", .simpleInspection⟩
    rfl rfl rfl rfl

/-! ### Linking lemmas -/

theorem getD_default_or_mem {α : Type _} [Inhabited α] (l : List α) (j : ℕ) :
    l.getD j default = default ∨ l.getD j default ∈ l := by
  induction l generalizing j with
  | nil => left; simp
  | cons a l ih =>
    cases j with
    | zero => right; simp
    | succ j =>
      rcases ih j with h | h
      · left; simpa using h
      · right; simp only [List.getD_cons_succ]; exact List.mem_cons_of_mem a h

theorem getD_map_tr (f : Transition → Transition) (hf : f default = default)
    (l : List Transition) : ∀ j : ℕ, (l.map f).getD j default = f (l.getD j default) := by
  induction l with
  | nil => intro j; simp [hf]
  | cons a l ih =>
    intro j
    cases j with
    | zero => rfl
    | succ j => simpa using ih j

theorem link_to_name (t u : MissionTask) : (link_to t u).name = t.name := rfl

theorem set_as_final_name (t : MissionTask) : (set_as_final t).name = t.name := rfl

theorem link_to_transitions_getD (t u : MissionTask) (j : ℕ) :
    (link_to t u).transitions.getD j default =
      (fun tr => if tr.transition = "[next_task_name]" then
          { tr with transition := u.name } else tr)
        (t.transitions.getD j default) :=
  getD_map_tr
    (fun tr => if tr.transition = "[next_task_name]" then
        { tr with transition := u.name } else tr)
    (if_neg (by decide)) t.transitions j

theorem set_as_final_transitions_getD (t : MissionTask) (j : ℕ) :
    (set_as_final t).transitions.getD j default =
      (fun tr => if tr.transition = "[next_task_name]" then
          { tr with
            transition_to_state := false
            transition :=
              if tr.outcome = "success" ∨ tr.outcome = "normal" then "success"
              else "failure" }
        else tr)
        (t.transitions.getD j default) :=
  getD_map_tr
    (fun tr => if tr.transition = "[next_task_name]" then
        { tr with
          transition_to_state := false
          transition :=
            if tr.outcome = "success" ∨ tr.outcome = "normal" then "success"
            else "failure" }
      else tr)
    (if_neg (by decide)) t.transitions j

theorem linkTasks_cons_cons (t u : MissionTask) (rest : List MissionTask) :
    linkTasks (t :: u :: rest) = link_to t u :: linkTasks (u :: rest) := rfl

theorem linkTasks_length (ts : List MissionTask) : (linkTasks ts).length = ts.length := by
  induction ts with
  | nil => rfl
  | cons t l ih =>
    cases l with
    | nil => rfl
    | cons u rest => simpa [linkTasks] using ih

theorem linkTasks_getD_of_lt (ts : List MissionTask) :
    ∀ i : ℕ, i + 1 < ts.length →
      (linkTasks ts).getD i default =
        link_to (ts.getD i default) (ts.getD (i + 1) default) := by
  induction ts with
  | nil => intro i h; simp at h
  | cons t l ih =>
    cases l with
    | nil => intro i h; simp at h
    | cons u rest =>
      intro i h
      cases i with
      | zero => rfl
      | succ i =>
        have h' : i + 1 < (u :: rest).length := by
          simpa [Nat.succ_lt_succ_iff] using h
        simpa [linkTasks, List.getD_cons_succ] using ih i h'

theorem linkTasks_getD_last (ts : List MissionTask) (h : ts ≠ []) :
    (linkTasks ts).getD (ts.length - 1) default =
      set_as_final (ts.getD (ts.length - 1) default) := by
  induction ts with
  | nil => exact absurd rfl h
  | cons t l ih =>
    cases l with
    | nil => rfl
    | cons u rest =>
      have hlen : (t :: u :: rest).length - 1 = ((u :: rest).length - 1) + 1 := by
        simp
      rw [hlen, linkTasks_cons_cons, List.getD_cons_succ, List.getD_cons_succ]
      exact ih (by simp)

/-- Claim C1: after the linking stage of process_mission_generation, applied to
the ordered list of resolved tasks (whose placeholder transitions all carry a
true continuation flag, as every factory-constructed task does): every
placeholder transition of task i with i+1 < N targets task i+1's name with
continuation flag still true; every placeholder transition of the last task
gets continuation flag false and target success when its outcome is success or
normal, failure otherwise; the Mission built from an empty task list has the
empty string as initial state; and the premise holds for resolved tasks: every
task produced by create_task_entry carries a true continuation flag on each of
its placeholder transitions. -/
theorem mission_linking_rewrites_placeholders (ts : List MissionTask) :
    ((∀ t ∈ ts, ∀ tr ∈ t.transitions,
        tr.transition = "[next_task_name]" → tr.transition_to_state = true) →
      ∀ i j : ℕ, i + 1 < ts.length →
        ((ts.getD i default).transitions.getD j default).transition = "[next_task_name]" →
        ((linkTasks ts).getD i default).transitions.getD j default =
          ⟨((ts.getD i default).transitions.getD j default).outcome,
           (ts.getD (i + 1) default).name, true⟩) ∧
    (ts ≠ [] →
      ∀ j : ℕ,
        ((ts.getD (ts.length - 1) default).transitions.getD j default).transition =
          "[next_task_name]" →
        ((linkTasks ts).getD (ts.length - 1) default).transitions.getD j default =
          ⟨((ts.getD (ts.length - 1) default).transitions.getD j default).outcome,
           if ((ts.getD (ts.length - 1) default).transitions.getD j default).outcome =
                "success" ∨
              ((ts.getD (ts.length - 1) default).transitions.getD j default).outcome =
                "normal"
           then "success" else "failure", false⟩) ∧
    (∀ nm : String, (missionFromTasks nm []).initial_state = "") ∧
    (∀ (d : TaskDescriptor) (env : Environment) (mt : MissionTask),
        (create_task_entry d env).1 = some mt →
        ∀ tr ∈ mt.transitions, tr.transition = "[next_task_name]" →
          tr.transition_to_state = true) := by
  refine ⟨?_, ?_, ?_, ?_⟩
  · intro hflag i j hi htr
    have hmemt : ts.getD i default ∈ ts := by
      rcases getD_default_or_mem ts i with h | h
      · exfalso
        rw [h] at htr
        simp [default] at htr
      · exact h
    have hmemtr : (ts.getD i default).transitions.getD j default ∈
        (ts.getD i default).transitions := by
      rcases getD_default_or_mem (ts.getD i default).transitions j with h | h
      · exfalso; rw [h] at htr; simp [default] at htr
      · exact h
    have hflag' := hflag _ hmemt _ hmemtr htr
    rw [linkTasks_getD_of_lt ts i hi, link_to_transitions_getD]
    simp only [if_pos htr]
    cases htr' : (ts.getD i default).transitions.getD j default with
    | mk o tr fl =>
      rw [htr'] at hflag'
      simp only [htr'] at *
      simp_all
  · intro hne j htr
    rw [linkTasks_getD_last ts hne, set_as_final_transitions_getD]
    simp only [if_pos htr]
  · intro nm; rfl
  · intro d env mt h
    rw [create_task_entry_fst] at h
    simp only [resolveTaskEntry] at h
    repeat' split at h
    all_goals try exact Option.noConfusion h
    all_goals injection h with h
    all_goals subst h
    all_goals intro tr htr hp
    all_goals
      simp only [UndockTask, DockTask, SleepTask, NavigationTask, InspectionTask,
        SimpleInspectionTask, List.mem_cons, List.not_mem_nil, or_false] at htr
    all_goals rcases htr with rfl | rfl | rfl | rfl <;> simp_all

/-- Claim C1 witness: linking the two-task list [Undock A, Undock B] rewrites
A's placeholder success transition to target B with the flag still true, and
finalises B's placeholder success transition to the reserved success exit with
the flag false; the empty Mission has initial state the empty string. -/
theorem mission_linking_rewrites_placeholders_witness :
    ((linkTasks [UndockTask "A", UndockTask "B"]).getD 0 default).transitions.getD 2
        default = ⟨"success", "B", true⟩ ∧
    ((linkTasks [UndockTask "A", UndockTask "B"]).getD 1 default).transitions.getD 2
        default = ⟨"success", "success", false⟩ ∧
    (missionFromTasks "M" []).initial_state = "" := by
  have h := mission_linking_rewrites_placeholders [UndockTask "A", UndockTask "B"]
  exact ⟨h.1 (by decide) 0 2 (by decide) (by decide),
         h.2.1 (by decide) 2 (by decide),
         h.2.2.1 "M"⟩

/-! ### Transition-target invariant -/

/-- A transition target as produced by the task factory: either the placeholder
or one of the three reserved exit states. -/
def targetOk (tr : Transition) : Prop :=
  tr.transition = "[next_task_name]" ∨ tr.transition = "success" ∨
    tr.transition = "failure" ∨ tr.transition = "preemption"

theorem undock_targets_ok (n : String) :
    ∀ tr ∈ (UndockTask n).transitions, targetOk tr := by
  intro tr h
  simp [UndockTask] at h
  rcases h with rfl | rfl | rfl <;> simp [targetOk]

theorem dock_targets_ok (n s : String) :
    ∀ tr ∈ (DockTask n s).transitions, targetOk tr := by
  intro tr h
  simp [DockTask] at h
  rcases h with rfl | rfl | rfl <;> simp [targetOk]

theorem sleep_targets_ok (n : String) (d : ℚ) :
    ∀ tr ∈ (SleepTask n d).transitions, targetOk tr := by
  intro tr h
  simp [SleepTask] at h
  rcases h with rfl | rfl | rfl <;> simp [targetOk]

theorem navigation_targets_ok (n g r : String) :
    ∀ tr ∈ (NavigationTask n g r).transitions, targetOk tr := by
  intro tr h
  simp [NavigationTask] at h
  rcases h with rfl | rfl | rfl <;> simp [targetOk]

theorem inspection_targets_ok (n i p a : String) :
    ∀ tr ∈ (InspectionTask n i p a).transitions, targetOk tr := by
  intro tr h
  simp [InspectionTask] at h
  rcases h with rfl | rfl | rfl | rfl <;> simp [targetOk]

theorem simple_inspection_targets_ok (n i p a : String) :
    ∀ tr ∈ (SimpleInspectionTask n i p a).transitions, targetOk tr := by
  intro tr h
  simp [SimpleInspectionTask] at h
  rcases h with rfl | rfl | rfl <;> simp [targetOk]

theorem resolveTaskEntry_targets_ok (task : TaskDescriptor) (env : Environment)
    (mt : MissionTask) (h : resolveTaskEntry task env = some mt) :
    ∀ tr ∈ mt.transitions, targetOk tr := by
  simp only [resolveTaskEntry] at h
  repeat' split at h
  all_goals try exact Option.noConfusion h
  all_goals injection h with h
  all_goals subst h
  all_goals
    first
      | exact undock_targets_ok _
      | exact dock_targets_ok _ _
      | exact sleep_targets_ok _ _
      | exact navigation_targets_ok _ _ _
      | exact inspection_targets_ok _ _ _ _
      | exact simple_inspection_targets_ok _ _ _ _

theorem linkTasks_map_name (ts : List MissionTask) :
    (linkTasks ts).map MissionTask.name = ts.map MissionTask.name := by
  induction ts with
  | nil => rfl
  | cons a l ih =>
    cases l with
    | nil => rfl
    | cons u rest => simp [linkTasks_cons_cons, link_to_name, ih]

theorem linkTasks_targets (ts : List MissionTask)
    (h : ∀ t ∈ ts, ∀ tr ∈ t.transitions, targetOk tr) :
    ∀ t ∈ linkTasks ts, ∀ tr ∈ t.transitions,
      tr.transition ∈ ts.map MissionTask.name ∨
        tr.transition = "success" ∨ tr.transition = "failure" ∨
        tr.transition = "preemption" := by
  induction ts with
  | nil => simp [linkTasks]
  | cons a l ih =>
    cases l with
    | nil =>
      intro t ht tr htr
      simp only [linkTasks, List.mem_singleton] at ht
      subst ht
      simp only [set_as_final, List.mem_map] at htr
      obtain ⟨tr0, h0, rfl⟩ := htr
      by_cases hp : tr0.transition = "[next_task_name]"
      · rw [if_pos hp]
        by_cases ho : tr0.outcome = "success" ∨ tr0.outcome = "normal" <;>
          simp [ho]
      · rw [if_neg hp]
        rcases h a (by simp) tr0 h0 with h' | h' | h' | h' <;> tauto
    | cons u rest =>
      intro t ht tr htr
      rw [linkTasks_cons_cons] at ht
      rcases List.mem_cons.1 ht with rfl | ht'
      · simp only [link_to, List.mem_map] at htr
        obtain ⟨tr0, h0, rfl⟩ := htr
        by_cases hp : tr0.transition = "[next_task_name]"
        · rw [if_pos hp]
          left; simp
        · rw [if_neg hp]
          rcases h a (by simp) tr0 h0 with h' | h' | h' | h' <;> tauto
      · have hl : ∀ t' ∈ u :: rest, ∀ tr' ∈ t'.transitions, targetOk tr' :=
          fun t' ht'' tr' htr' => h t' (List.mem_cons_of_mem a ht'') tr' htr'
        rcases ih hl t ht' tr htr with h' | h' | h' | h'
        · left; exact List.mem_cons_of_mem _ h'
        · tauto
        · tauto
        · tauto

/-- Claim C2 counterexample: with the descriptor list [(A, undock),
([next_task_name], undock)] a task is legitimately named with the placeholder
string, and after linking the first task's success transition still carries
the literal target [next_task_name] in the finished Mission, so the first
conjunct of the claim fails (the target is nevertheless the name of a task of
the Mission, so the second conjunct holds here). -/
theorem placeholder_survives_as_task_name :
    ∃ t ∈ (process_mission_generation
        [⟨"A", some "undock", none, none, none, none⟩,
         ⟨"[next_task_name]", some "undock", none, none, none, none⟩]
        ⟨[], []⟩ "M").1.states,
      ∃ tr ∈ t.transitions, tr.transition = "[next_task_name]" := by decide

/-- Claim C2 amended: in every Mission produced by process_mission_generation,
every transition target is the name of a task of the same Mission or one of
the three reserved exit states success, failure, preemption.  (The literal
placeholder string can consequently only occur as a target when some task of
the Mission is itself named with it.) -/
theorem transition_targets_task_or_reserved (ds : List TaskDescriptor)
    (env : Environment) (nm : String) :
    ∀ t ∈ (process_mission_generation ds env nm).1.states,
      ∀ tr ∈ t.transitions,
        tr.transition ∈
            (process_mission_generation ds env nm).1.states.map MissionTask.name ∨
          tr.transition = "success" ∨ tr.transition = "failure" ∨
          tr.transition = "preemption" := by
  intro t ht tr htr
  have hok : ∀ t' ∈ (ds.map fun task_spec => create_task_entry task_spec env).filterMap
      Prod.fst, ∀ tr' ∈ t'.transitions, targetOk tr' := by
    intro t' ht' tr' htr'
    rw [List.mem_filterMap] at ht'
    obtain ⟨a, hmem, hfst⟩ := ht'
    rw [List.mem_map] at hmem
    obtain ⟨d, _, ha⟩ := hmem
    rw [← ha] at hfst
    rw [create_task_entry_fst] at hfst
    exact resolveTaskEntry_targets_ok (setLabelDefault d) env t' hfst tr' htr'
  have hmain := linkTasks_targets _ hok t ht tr htr
  rcases hmain with h' | h' | h' | h'
  · left
    show tr.transition ∈ (linkTasks
      ((ds.map fun task_spec => create_task_entry task_spec env).filterMap Prod.fst)).map
        MissionTask.name
    rw [linkTasks_map_name]
    exact h'
  · right; left; exact h'
  · right; right; left; exact h'
  · right; right; right; exact h'

/-- Claim C2 amended witness: in the Mission generated from the single undock
descriptor A, the failure transition of its only state targets the reserved
failure exit. -/
theorem transition_targets_task_or_reserved_witness :
    (⟨"failure", "failure", false⟩ : Transition).transition ∈
        (process_mission_generation [⟨"A", some "undock", none, none, none, none⟩]
            ⟨[], []⟩ "M").1.states.map MissionTask.name ∨
      (⟨"failure", "failure", false⟩ : Transition).transition = "success" ∨
      (⟨"failure", "failure", false⟩ : Transition).transition = "failure" ∨
      (⟨"failure", "failure", false⟩ : Transition).transition = "preemption" :=
  transition_targets_task_or_reserved
    [⟨"A", some "undock", none, none, none, none⟩] ⟨[], []⟩ "M"
    (set_as_final (UndockTask "A")) (by decide)
    ⟨"failure", "failure", false⟩ (by decide)

/-! ### Idempotence of mission generation -/

theorem setLabelDefault_idem (d : TaskDescriptor) :
    setLabelDefault (setLabelDefault d) = setLabelDefault d := by
  by_cases h : d.label = none <;> simp [setLabelDefault, h]

theorem create_task_entry_snd (d : TaskDescriptor) (env : Environment) :
    (create_task_entry d env).2 = setLabelDefault d := rfl

/-- Claim C9: running process_mission_generation a second time on the same
environment and mission name, with the descriptor list as the first call left
it (the first call mutates the caller's dicts only by defaulting absent
labels), returns exactly the first call's Mission and leaves the descriptors
unchanged.  Task, setting and transition values are rebuilt from scratch on
every call in the model, mirroring the factory's fresh construction per call;
byte-identity of the two Missions is the provable content of the
no-shared-mutable-state guard. -/
theorem mission_generation_idempotent (ds : List TaskDescriptor)
    (env : Environment) (nm : String) :
    process_mission_generation (process_mission_generation ds env nm).2 env nm =
      process_mission_generation ds env nm := by
  have hcomp : ∀ d : TaskDescriptor,
      create_task_entry (setLabelDefault d) env = create_task_entry d env := by
    intro d
    unfold create_task_entry
    rw [setLabelDefault_idem]
  unfold process_mission_generation
  simp only [List.map_map]
  have hfun : ((fun task_spec => create_task_entry task_spec env) ∘
        Prod.snd ∘ fun task_spec => create_task_entry task_spec env) =
      fun task_spec => create_task_entry task_spec env := by
    funext d
    exact hcomp d
  rw [hfun]

/-! ### Descriptor aliasing between forward and reverse missions -/

/-- The forward task list of mission_generator.py line 21: the chunks
flattened in order. -/
def forward_task_list {α : Type _} (mission_chunks : List (List α)) : List α :=
  mission_chunks.flatten

/-- The reverse task list of mission_generator.py line 24: the chunks in
reverse order, each chunk's internal order preserved, flattened. -/
def reverse_task_list {α : Type _} (mission_chunks : List (List α)) : List α :=
  mission_chunks.reverse.flatten

/-- The resolution loop of process_mission_generation (task_factory.py lines
180-184) against an explicit descriptor heap: the task lists built by
mission_generator.py hold references into the shared pool of descriptor dicts,
so the loop is modelled over a store of descriptors addressed by index, with
create_task_entry's label mutation written back to the store. -/
def resolveStore (env : Environment) :
    List ℕ → List TaskDescriptor → List MissionTask × List TaskDescriptor
  | [], store => ([], store)
  | i :: rest, store =>
    let r := create_task_entry (store.getD i default) env
    let res := resolveStore env rest (store.set i r.2)
    (match r.1 with
     | some t => t :: res.1
     | none => res.1,
     res.2)

/-- generate_and_save_missions (mission_generator.py lines 13-42, file output
dropped): flatten the chunks forward and reversed, generate the forward
mission (mutating the shared descriptor store), then generate the reverse
mission over the store as the forward pass left it. -/
def generate_and_save_missions (segment_name : String)
    (mission_chunks : List (List ℕ)) (store : List TaskDescriptor)
    (env : Environment) : Mission × Mission × List TaskDescriptor :=
  let fwdRes := resolveStore env (forward_task_list mission_chunks) store
  let mF := missionFromTasks (segment_name ++ "_Forward_Mission") fwdRes.1
  let revRes := resolveStore env (reverse_task_list mission_chunks) fwdRes.2
  let mR := missionFromTasks (segment_name ++ "_Reverse_Mission") revRes.1
  (mF, mR, revRes.2)

theorem setLabelDefault_label_ne_none (d : TaskDescriptor) :
    (setLabelDefault d).label ≠ none := by
  unfold setLabelDefault
  split <;> simp_all

theorem resolveStore_store_getD (env : Environment) (idxs : List ℕ) :
    ∀ (store : List TaskDescriptor),
      (∀ k ∈ idxs, k < store.length) → ∀ j : ℕ,
        (resolveStore env idxs store).2.getD j default =
          if j ∈ idxs then setLabelDefault (store.getD j default)
          else store.getD j default := by
  induction idxs with
  | nil => intro store _ j; simp [resolveStore]
  | cons i rest ih =>
    intro store hb j
    have hbi : i < store.length := hb i (List.mem_cons_self i rest)
    have hb' : ∀ k ∈ rest,
        k < (store.set i (setLabelDefault (store.getD i default))).length := by
      intro k hk
      rw [List.length_set]
      exact hb k (List.mem_cons_of_mem _ hk)
    have hstep : (resolveStore env (i :: rest) store).2 =
        (resolveStore env rest
          (store.set i (setLabelDefault (store.getD i default)))).2 := rfl
    rw [hstep, ih _ hb' j]
    by_cases hj : j = i
    · subst hj
      have hset : (store.set j (setLabelDefault (store.getD j default))).getD j default =
          setLabelDefault (store.getD j default) := by
        rw [List.getD_eq_getElem?_getD, List.getElem?_set_eq_of_lt _ hbi, Option.getD_some]
      rw [if_pos (List.mem_cons_self j rest)]
      by_cases hr : j ∈ rest
      · rw [if_pos hr, hset, setLabelDefault_idem]
      · rw [if_neg hr, hset]
    · have hset : (store.set i (setLabelDefault (store.getD i default))).getD j default =
          store.getD j default := by
        rw [List.getD_eq_getElem?_getD, List.getElem?_set_ne (fun h => hj h.symm),
          ← List.getD_eq_getElem?_getD]
      have hmem : j ∈ i :: rest ↔ j ∈ rest := by
        constructor
        · intro h
          rcases List.mem_cons.1 h with h' | h'
          · exact absurd h' hj
          · exact h'
        · exact List.mem_cons_of_mem i
      by_cases hr : j ∈ rest
      · rw [if_pos hr, if_pos (hmem.2 hr), hset]
      · rw [if_neg hr, if_neg (fun h => hr (hmem.1 h)), hset]

theorem mem_reverse_task_list {α : Type _} (x : α) (mission_chunks : List (List α)) :
    x ∈ reverse_task_list mission_chunks ↔ x ∈ forward_task_list mission_chunks := by
  simp [reverse_task_list, forward_task_list]

/-- Claim C10: create_task_entry writes label := name into the caller's
descriptor when the label key is absent and touches nothing else (when a label
is present the descriptor is returned untouched); and because the forward and
reverse task lists of generate_and_save_missions address the same descriptor
store, every store entry the reverse-mission generation reads has already been
label-defaulted by the forward pass: it equals setLabelDefault of the
original, so its label is present. -/
theorem label_mutation_and_aliasing :
    (∀ (d : TaskDescriptor) (env : Environment), d.label = none →
        (create_task_entry d env).2 = { d with label := some d.name }) ∧
    (∀ (d : TaskDescriptor) (env : Environment), d.label ≠ none →
        (create_task_entry d env).2 = d) ∧
    (∀ (mission_chunks : List (List ℕ)) (store : List TaskDescriptor)
        (env : Environment) (i : ℕ),
        (∀ k ∈ forward_task_list mission_chunks, k < store.length) →
        i ∈ reverse_task_list mission_chunks →
        (resolveStore env (forward_task_list mission_chunks) store).2.getD i default =
            setLabelDefault (store.getD i default) ∧
          ((resolveStore env (forward_task_list mission_chunks) store).2.getD i
              default).label ≠ none) := by
  refine ⟨?_, ?_, ?_⟩
  · intro d env h
    rw [create_task_entry_snd]
    unfold setLabelDefault
    rw [if_pos h]
  · intro d env h
    rw [create_task_entry_snd]
    unfold setLabelDefault
    rw [if_neg h]
  · intro mission_chunks store env i hb hi
    have hif := (mem_reverse_task_list i mission_chunks).1 hi
    have h := resolveStore_store_getD env (forward_task_list mission_chunks) store hb i
    rw [if_pos hif] at h
    exact ⟨h, h ▸ setLabelDefault_label_ne_none _⟩

/-- Claim C10 witness: the undock descriptor A without a label gets label A
written into it, and after the forward pass over the one-chunk store the
descriptor that the reverse pass reads carries that label. -/
theorem label_mutation_and_aliasing_witness :
    (create_task_entry ⟨"A", some "undock", none, none, none, none⟩ ⟨[], []⟩).2 =
      ⟨"A", some "undock", some "A", none, none, none⟩ ∧
    ((resolveStore ⟨[], []⟩ (forward_task_list [[0]])
        [⟨"A", some "undock", none, none, none, none⟩]).2.getD 0 default).label ≠
      none := by
  refine ⟨?_, ?_⟩
  · exact label_mutation_and_aliasing.1 ⟨"A", some "undock", none, none, none, none⟩
      ⟨[], []⟩ rfl
  · exact (label_mutation_and_aliasing.2.2 [[0]]
      [⟨"A", some "undock", none, none, none, none⟩] ⟨[], []⟩ 0
      (by decide) (by decide)).2

/-! ### Geometry (geometry.py) -/

/-- calculate_distance (geometry.py lines 9-15): Euclidean distance. -/
noncomputable def calculate_distance (start end_ : Vec3) : ℝ :=
  Real.sqrt ((start.x - end_.x) ^ 2 + (start.y - end_.y) ^ 2 + (start.z - end_.z) ^ 2)

/-- calculate_waypoint_position (geometry.py lines 18-31): linear interpolation
along the segment; the interpolation factor is index * spacing / distance when
distance > 0 and 0 otherwise, so the division is never performed on a zero
distance. -/
noncomputable def calculate_waypoint_position (start end_ : Vec3) (spacing : ℝ)
    (index : ℕ) (distance : ℝ) : Vec3 :=
  let r : ℝ := if distance > 0 then index * spacing / distance else 0
  ⟨start.x + (end_.x - start.x) * r,
   start.y + (end_.y - start.y) * r,
   start.z + (end_.z - start.z) * r⟩

/-- Python's int() conversion on a real value: truncation toward zero. -/
noncomputable def pyInt (x : ℝ) : ℤ := if 0 ≤ x then ⌊x⌋ else ⌈x⌉

/-- Claim C5: calculate_waypoint_position is total in the model; the waypoint
at index 0 equals start for every segment, and when the distance is 0 the
interpolation factor is taken as 0 so every waypoint equals start (the guard
means the division by the distance is never executed on 0). -/
theorem waypoint_position_total (start end_ : Vec3) (spacing distance : ℝ) :
    calculate_waypoint_position start end_ spacing 0 distance = start ∧
    (distance = 0 → ∀ index : ℕ,
      calculate_waypoint_position start end_ spacing index distance = start) := by
  obtain ⟨sx, sy, sz⟩ := start
  constructor
  · unfold calculate_waypoint_position
    by_cases hd : distance > 0 <;> simp [hd]
  · intro h0 index
    unfold calculate_waypoint_position
    rw [h0]
    norm_num

/-- Claim C5 witness: a concrete index-0 waypoint equals the segment start, and
a concrete waypoint of a zero-distance segment equals the start. -/
theorem waypoint_position_total_witness :
    calculate_waypoint_position ⟨1, 2, 3⟩ ⟨4, 5, 6⟩ 2 0 5 = ⟨1, 2, 3⟩ ∧
    calculate_waypoint_position ⟨1, 2, 3⟩ ⟨4, 5, 6⟩ 2 7 0 = ⟨1, 2, 3⟩ :=
  ⟨(waypoint_position_total ⟨1, 2, 3⟩ ⟨4, 5, 6⟩ 2 5).1,
   (waypoint_position_total ⟨1, 2, 3⟩ ⟨4, 5, 6⟩ 2 0).2 rfl 7⟩

/-! ### Waypoint generation (environment_builder.py) -/

/-- One inspection entry of a segment descriptor (environment_builder.py
lines 210-235 read type, suffix, offset, orientation, width, height). -/
structure InspectionEntry where
  type : String
  suffix : String := ""
  offset : Vec3 := ⟨0, 0, 0⟩
  orientation : Option Quat := none
  width : Option ℝ := none
  height : Option ℝ := none

/-- One segment descriptor (environment_builder.py lines 186-210): the end
field is called end in the source. -/
structure SegmentEntry where
  name : String
  start : Vec3
  end_ : Vec3
  spacing : ℝ
  orientation : Option Quat := none
  translation_tolerance : Option ℝ := none
  inspections : Option (List InspectionEntry) := none

/-- create_navigation_waypoint (environment_builder.py lines 84-111): build the
navigation goal (with the segment's orientation and translation tolerance when
present), its sibling navigation zone and the goal-to-zone relation. -/
def create_navigation_waypoint (name : String) (position : Vec3)
    (entry : SegmentEntry) (env : Environment) :
    EnvObject × EnvObject × Environment :=
  let nav_goal : EnvObject := .navigationGoal (name ++ "_NavGoal") (name ++ "_NavGoal")
    { pose := { position := position
                orientation := match entry.orientation with
                  | some q => q
                  | none => ⟨1, 0, 0, 0⟩ }
      tolerance := entry.translation_tolerance.map fun t =>
        { translation := t, rotation := 0.104719758033752 } }
  let env := env.add_object nav_goal
  let nav_zone : EnvObject := .navigationZone (name ++ "_NavZone") (name ++ "_NavZone")
  let env := env.add_object nav_zone
  let env := env.add_relation nav_goal.name nav_zone.name
  (nav_goal, nav_zone, env)

/-- create_inspection_point (environment_builder.py lines 114-172): build the
thermal or visual inspection object, the zone-to-inspection relation, and the
task specification dict; any other inspection type yields none. -/
def create_inspection_point (obj_name : String) (position : Vec3)
    (inspection_config : InspectionEntry) (nav_zone : EnvObject)
    (env : Environment) : Option TaskDescriptor × Environment :=
  if inspection_config.type = "thermal_inspection" then
    let inspection : EnvObject := .thermalInspectionPoint obj_name obj_name
      { pose := { position := position
                  orientation := match inspection_config.orientation with
                    | some q => q
                    | none => ⟨1, 0, 0, 0⟩ }
        tolerance := none }
      0.6 "Max" "degreesC" ⟨-20, 900⟩
    let env := (env.add_object inspection).add_relation nav_zone.name inspection.name
    (some ⟨obj_name, some "visual_inspection_thermal", none, some "InspectFromHere",
      none, none⟩, env)
  else if inspection_config.type = "visual_inspection" then
    let inspection : EnvObject := .visualInspectionPoint obj_name obj_name
      { pose := { position := position
                  orientation := match inspection_config.orientation with
                    | some q => q
                    | none => ⟨1, 0, 0, 0⟩ }
        tolerance := none }
      "normal"
      (match inspection_config.width, inspection_config.height with
       | some w, some h => ⟨w, h⟩
       | _, _ => ⟨0.1, 0.8⟩)
    let env := (env.add_object inspection).add_relation nav_zone.name inspection.name
    (some ⟨obj_name, some "visual_inspection_simple", none, some "InspectFromHere",
      none, none⟩, env)
  else
    (none, env)

/-- The inspection loop of generate_waypoints_for_segment
(environment_builder.py lines 210-235): unrecognised inspection types are
skipped, the generated task specifications are collected in order. -/
def buildInspections (waypoint_name : String) (actual_nav_pos : Vec3)
    (nav_zone : EnvObject) :
    List InspectionEntry → Environment → List TaskDescriptor × Environment
  | [], env => ([], env)
  | inspection_entry :: rest, env =>
    let inspection_pos : Vec3 :=
      ⟨actual_nav_pos.x + inspection_entry.offset.x,
       actual_nav_pos.y + inspection_entry.offset.y,
       actual_nav_pos.z + inspection_entry.offset.z⟩
    let obj_name? : Option String :=
      if inspection_entry.type = "thermal_inspection" then
        some (waypoint_name ++ inspection_entry.suffix ++ "VIT")
      else if inspection_entry.type = "visual_inspection" then
        some (waypoint_name ++ inspection_entry.suffix ++ "VIS")
      else none
    match obj_name? with
    | none => buildInspections waypoint_name actual_nav_pos nav_zone rest env
    | some obj_name =>
      let r := create_inspection_point obj_name inspection_pos inspection_entry
        nav_zone env
      let res := buildInspections waypoint_name actual_nav_pos nav_zone rest r.2
      match r.1 with
      | some task_spec => (task_spec :: res.1, res.2)
      | none => (res.1, res.2)

/-- The body of the waypoint loop (environment_builder.py lines 193-237): one
chunk holds the waypoint's navigation task followed by its inspection tasks. -/
noncomputable def buildChunk (entry : SegmentEntry) (dist : ℝ) (i : ℕ)
    (env : Environment) : List TaskDescriptor × Environment :=
  let actual_nav_pos :=
    calculate_waypoint_position entry.start entry.end_ entry.spacing i dist
  let waypoint_name := entry.name ++ toString i
  let cnw := create_navigation_waypoint waypoint_name actual_nav_pos entry env
  let navDesc : TaskDescriptor := { name := cnw.1.name, type := some "navigation_goal" }
  let insp := buildInspections waypoint_name actual_nav_pos cnw.2.1
    (entry.inspections.getD []) cnw.2.2
  (navDesc :: insp.1, insp.2)

/-- The waypoint loop of generate_waypoints_for_segment, one chunk per index. -/
noncomputable def genChunks (entry : SegmentEntry) (dist : ℝ) :
    List ℕ → Environment → List (List TaskDescriptor) × Environment
  | [], env => ([], env)
  | i :: rest, env =>
    let c := buildChunk entry dist i env
    let cs := genChunks entry dist rest c.2
    (c.1 :: cs.1, cs.2)

/-- generate_waypoints_for_segment (environment_builder.py lines 175-239):
distance, count n = int(dist / spacing), chunks for indices 0 .. n. -/
noncomputable def generate_waypoints_for_segment (entry : SegmentEntry)
    (env : Environment) : List (List TaskDescriptor) × Environment :=
  let dist := calculate_distance entry.start entry.end_
  let n := pyInt (dist / entry.spacing)
  genChunks entry dist (List.range (n + 1).toNat) env

/-- Claim C4: with positive spacing, the number of generated chunks (one per
waypoint) is floor(distance / spacing) + 1. -/
theorem waypoint_chunk_count (entry : SegmentEntry) (env : Environment)
    (h : 0 < entry.spacing) :
    (generate_waypoints_for_segment entry env).1.length =
      Nat.floor (calculate_distance entry.start entry.end_ / entry.spacing) + 1 := by
  have hlen : ∀ (l : List ℕ) (e : Environment),
      (genChunks entry (calculate_distance entry.start entry.end_) l e).1.length =
        l.length := by
    intro l
    induction l with
    | nil => intro e; rfl
    | cons i rest ih => intro e; simp only [genChunks, List.length_cons, ih]
  simp only [generate_waypoints_for_segment]
  rw [hlen, List.length_range]
  have hd : 0 ≤ calculate_distance entry.start entry.end_ := Real.sqrt_nonneg _
  have hq : 0 ≤ calculate_distance entry.start entry.end_ / entry.spacing :=
    div_nonneg hd (le_of_lt h)
  rw [pyInt, if_pos hq]
  have hfl : 0 ≤ ⌊calculate_distance entry.start entry.end_ / entry.spacing⌋ :=
    Int.floor_nonneg.mpr hq
  have h1 : (⌊calculate_distance entry.start entry.end_ / entry.spacing⌋ + 1).toNat =
      ⌊calculate_distance entry.start entry.end_ / entry.spacing⌋.toNat + 1 := by
    omega
  rw [h1, Int.floor_toNat]

/-- Claim C4 witness: the spacing hypothesis holds at the concrete segment of
spec section 8 (start (0,0,0), end (9,0,0), spacing 3). -/
theorem waypoint_chunk_count_witness :
    (generate_waypoints_for_segment
        ⟨"S1_", ⟨0, 0, 0⟩, ⟨9, 0, 0⟩, 3, none, none, none⟩ ⟨[], []⟩).1.length =
      Nat.floor (calculate_distance ⟨0, 0, 0⟩ ⟨9, 0, 0⟩ / 3) + 1 :=
  waypoint_chunk_count ⟨"S1_", ⟨0, 0, 0⟩, ⟨9, 0, 0⟩, 3, none, none, none⟩ ⟨[], []⟩
    (by norm_num)

/-! ### Chunk structure under flattening and reversal -/

theorem create_inspection_point_type (obj_name : String) (pos : Vec3)
    (ic : InspectionEntry) (nz : EnvObject) (env : Environment) (ts : TaskDescriptor)
    (h : (create_inspection_point obj_name pos ic nz env).1 = some ts) :
    ts.type = some "visual_inspection_thermal" ∨
      ts.type = some "visual_inspection_simple" := by
  simp only [create_inspection_point] at h
  split_ifs at h
  · injection h with h
    subst h
    left; rfl
  · injection h with h
    subst h
    right; rfl

theorem buildInspections_types (wn : String) (pos : Vec3) (nz : EnvObject) :
    ∀ (l : List InspectionEntry) (env : Environment) (d : TaskDescriptor),
      d ∈ (buildInspections wn pos nz l env).1 →
      d.type = some "visual_inspection_thermal" ∨
        d.type = some "visual_inspection_simple" := by
  intro l
  induction l with
  | nil => intro env d h; simp [buildInspections] at h
  | cons ie rest ih =>
    intro env d h
    simp only [buildInspections] at h
    split at h
    · exact ih env d h
    · split at h
      · rcases List.mem_cons.1 h with rfl | h'
        · next heq =>
            exact create_inspection_point_type _ _ _ _ _ d heq
        · exact ih _ d h'
      · exact ih _ d h

theorem buildChunk_shape (entry : SegmentEntry) (dist : ℝ) (i : ℕ)
    (env : Environment) :
    ∃ nav rest, (buildChunk entry dist i env).1 = nav :: rest ∧
      nav.type = some "navigation_goal" ∧
      ∀ d ∈ rest, d.type = some "visual_inspection_thermal" ∨
        d.type = some "visual_inspection_simple" := by
  refine ⟨_, _, rfl, rfl, ?_⟩
  intro d h
  exact buildInspections_types _ _ _ _ _ d h

theorem genChunks_mem (entry : SegmentEntry) (dist : ℝ) :
    ∀ (l : List ℕ) (env : Environment) (c : List TaskDescriptor),
      c ∈ (genChunks entry dist l env).1 →
      ∃ i e, c = (buildChunk entry dist i e).1 := by
  intro l
  induction l with
  | nil => intro env c h; simp [genChunks] at h
  | cons i rest ih =>
    intro env c h
    simp only [genChunks] at h
    rcases List.mem_cons.1 h with rfl | h'
    · exact ⟨i, env, rfl⟩
    · exact ih _ c h'

theorem flatten_infix {α : Type _} (c : List α) (L : List (List α)) (h : c ∈ L) :
    ∃ l1 l2, l1 ++ (c ++ l2) = L.flatten := by
  induction L with
  | nil => simp at h
  | cons a L ih =>
    rcases List.mem_cons.1 h with rfl | h'
    · exact ⟨[], L.flatten, by simp⟩
    · obtain ⟨l1, l2, hl⟩ := ih h'
      exact ⟨a ++ l1, l2, by rw [List.flatten_cons, ← hl]; simp⟩

/-- Claim C6: the forward task list is the concatenation of the generated
chunks in order and the reverse task list the concatenation of the chunks in
reversed order with each chunk's internal order unchanged; every chunk
produced by waypoint generation is a navigation task followed by that
waypoint's inspection tasks, and appears contiguously (navigation task
immediately preceding its inspections) in both flattened lists. -/
theorem chunk_flattening_and_shape (entry : SegmentEntry) (env : Environment) :
    forward_task_list (generate_waypoints_for_segment entry env).1 =
        (generate_waypoints_for_segment entry env).1.flatten ∧
      reverse_task_list (generate_waypoints_for_segment entry env).1 =
        (generate_waypoints_for_segment entry env).1.reverse.flatten ∧
      ∀ c ∈ (generate_waypoints_for_segment entry env).1,
        ∃ nav rest, c = nav :: rest ∧
          nav.type = some "navigation_goal" ∧
          (∀ d ∈ rest, d.type = some "visual_inspection_thermal" ∨
            d.type = some "visual_inspection_simple") ∧
          (∃ l1 l2, forward_task_list (generate_waypoints_for_segment entry env).1 =
            l1 ++ (c ++ l2)) ∧
          (∃ l1 l2, reverse_task_list (generate_waypoints_for_segment entry env).1 =
            l1 ++ (c ++ l2)) := by
  refine ⟨rfl, rfl, ?_⟩
  intro c hc
  obtain ⟨i, e, rfl⟩ :=
    genChunks_mem entry (calculate_distance entry.start entry.end_) _ env _ hc
  obtain ⟨nav, rest, hsplit, hnav, hrest⟩ :=
    buildChunk_shape entry (calculate_distance entry.start entry.end_) i e
  refine ⟨nav, rest, hsplit, hnav, hrest, ?_, ?_⟩
  · obtain ⟨l1, l2, hl⟩ := flatten_infix _ _ hc
    exact ⟨l1, l2, hl.symm⟩
  · obtain ⟨l1, l2, hl⟩ := flatten_infix _ _ (List.mem_reverse.2 hc)
    exact ⟨l1, l2, hl.symm⟩

end FieldUtils
